import Mathlib

/-!
Verification of the ONVIF PTZ proxy (frigate-to-baby1t-onvif-proxy).

This file shallowly embeds the parts of the Python sources relevant to the
frozen claims and proves or refutes each claim:

* `src/onvif_proxy.py`     — address rewriter, camera forwarder, SOAP faults
* `src/proxy_server.py`    — request router, capability splicer
* `src/soap_handler.py`    — SOAP codec (parse, response builders)
* `src/onvif_ptz_wrapper.py` — status tracker (move status, estimated position)
* `src/ptz_interceptor.py` — PTZ interceptor (RelativeMove synthesis, ...)

Conventions of the embedding:
* Python `str` is Lean `String`; `str.replace` is re-implemented exactly
  (left-to-right, non-overlapping) as `pyReplace`.
* Python floats are modelled as rationals `ℚ` (the operations used —
  addition, multiplication by constants, clamping — are exact).
* lxml element trees are modelled by the inductive `Xml`; lxml's
  `"{ns}local"` tag strings are modelled as a namespace/local-name pair.
* Network effects are modelled by an explicit outcome value (`CamResult`)
  and by recording the outbound calls a handler makes.
-/

set_option maxRecDepth 8000

namespace OnvifProxy

/-! ## Python string primitives -/

/-- One replacement scan of Python `str.replace` for a non-empty pattern
`p0 :: ps`: scan left to right, replace each non-overlapping occurrence,
continue after the replacement.  Structural recursion on a fuel that the
caller sets to the input length (each step consumes at least one input
character, so the fuel never runs out on the `replaceList` call path; if
it did, the rest of the input would be emitted unchanged). -/
def replaceFuel (p0 : Char) (ps c : List Char) : Nat → List Char → List Char
  | _, [] => []
  | 0, l => l
  | fuel + 1, a :: t =>
    if (p0 :: ps).isPrefixOf (a :: t) then
      c ++ replaceFuel p0 ps c fuel (t.drop ps.length)
    else
      a :: replaceFuel p0 ps c fuel t

/-- Python `s.replace(p, c)` on `List Char` (for the empty pattern the
callers in this code base never pass one; we return `s` unchanged). -/
def replaceList (p c s : List Char) : List Char :=
  match p with
  | [] => s
  | p0 :: ps => replaceFuel p0 ps c s.length s

/-- Python `s.replace(p, c)`. -/
def pyReplace (s p c : String) : String :=
  ⟨replaceList p.data c.data s.data⟩

/-- `sub` occurs somewhere in `l` (Python `sub in s` on char lists). -/
def infixOf (sub : List Char) : List Char → Bool
  | [] => sub.isEmpty
  | a :: t => sub.isPrefixOf (a :: t) || infixOf sub t

/-- Python `sub in s` for strings. -/
def pyContains (s sub : String) : Bool :=
  infixOf sub.data s.data

/-- Python `s.rstrip('s')`: remove all trailing `'s'` characters. -/
def rstripS (s : String) : String :=
  ⟨(s.data.reverse.dropWhile (fun c => c = 's')).reverse⟩

/-- Python `s.endswith(t)`. -/
def pyEndsWith (s t : String) : Bool :=
  t.data.isSuffixOf s.data

/-- A pattern that does not occur is not replaced (helper; holds for any
fuel, since the replacing branch is never taken). -/
theorem replaceFuel_of_not_infixOf (p0 : Char) (ps c : List Char) :
    ∀ (fuel : Nat) (s : List Char), infixOf (p0 :: ps) s = false →
      replaceFuel p0 ps c fuel s = s := by
  intro fuel
  induction fuel with
  | zero => intro s _; cases s <;> rfl
  | succ n ih =>
    intro s h
    cases s with
    | nil => rfl
    | cons a t =>
      rw [infixOf, Bool.or_eq_false_iff] at h
      rw [replaceFuel, if_neg (by simp [h.1]), ih t h.2]

/-- Python `s.replace(p, c) = s` when `p` does not occur in `s`. -/
theorem pyReplace_of_not_contains (s p c : String)
    (h : pyContains s p = false) : pyReplace s p c = s := by
  unfold pyContains at h
  cases hp : p.data with
  | nil =>
    rw [show pyReplace s p c = ⟨replaceList p.data c.data s.data⟩ from rfl, hp]
    simp [replaceList]
  | cons p0 ps =>
    rw [hp] at h
    rw [show pyReplace s p c = ⟨replaceList p.data c.data s.data⟩ from rfl, hp]
    simp only [replaceList]
    rw [replaceFuel_of_not_infixOf p0 ps c.data _ _ h]

/-! ## `src/onvif_proxy.py` — ONVIFServiceProxy -/

/-- The proxy identity: camera host/port and externally visible proxy
host/port (`ONVIFServiceProxy.__init__`).  Ports are Python ints that are
only ever used interpolated into strings, so they are modelled by their
decimal string form. -/
structure ProxyCfg where
  cameraIp : String
  cameraPort : String
  proxyHost : String
  proxyPort : String

/-- `ONVIFServiceProxy.rewrite_request`: replace the proxy host with the
camera host and `:{proxy_port}/`, `:{proxy_port}<` with the camera forms. -/
def rewrite_request (cfg : ProxyCfg) (soapBody : String) : String :=
  let s1 := pyReplace soapBody cfg.proxyHost cfg.cameraIp
  let s2 := pyReplace s1 (":" ++ cfg.proxyPort ++ "/") (":" ++ cfg.cameraPort ++ "/")
  pyReplace s2 (":" ++ cfg.proxyPort ++ "<") (":" ++ cfg.cameraPort ++ "<")

/-- `ONVIFServiceProxy.rewrite_response`: the inverse substitution
(camera host/port forms replaced by the proxy ones). -/
def rewrite_response (cfg : ProxyCfg) (soapResponse : String) : String :=
  let s1 := pyReplace soapResponse cfg.cameraIp cfg.proxyHost
  let s2 := pyReplace s1 (":" ++ cfg.cameraPort ++ "/") (":" ++ cfg.proxyPort ++ "/")
  pyReplace s2 (":" ++ cfg.cameraPort ++ "<") (":" ++ cfg.proxyPort ++ "<")

/-- Everything of the SOAP 1.2 fault envelope before the `Reason` text
(shared verbatim by `_timeout_fault`, `_connection_fault`, `_generic_fault`). -/
def faultPre : String :=
  "<?xml version=\"1.0\" encoding=\"UTF-8\"?>\n<SOAP-ENV:Envelope xmlns:SOAP-ENV=\"http://www.w3.org/2003/05/soap-envelope\">\n    <SOAP-ENV:Body>\n        <SOAP-ENV:Fault>\n            <SOAP-ENV:Code>\n                <SOAP-ENV:Value>SOAP-ENV:Receiver</SOAP-ENV:Value>\n            </SOAP-ENV:Code>\n            <SOAP-ENV:Reason>\n                <SOAP-ENV:Text xml:lang=\"en\">"

/-- Everything of the SOAP 1.2 fault envelope after the `Reason` text. -/
def faultPost : String :=
  "</SOAP-ENV:Text>\n            </SOAP-ENV:Reason>\n        </SOAP-ENV:Fault>\n    </SOAP-ENV:Body>\n</SOAP-ENV:Envelope>"

/-- `ONVIFServiceProxy._generic_fault(message)`: the f-string literal. -/
def generic_fault (message : String) : String :=
  faultPre ++ message ++ faultPost

/-- `ONVIFServiceProxy._timeout_fault`: the source literal, verbatim. -/
def timeout_fault : String :=
  "<?xml version=\"1.0\" encoding=\"UTF-8\"?>\n<SOAP-ENV:Envelope xmlns:SOAP-ENV=\"http://www.w3.org/2003/05/soap-envelope\">\n    <SOAP-ENV:Body>\n        <SOAP-ENV:Fault>\n            <SOAP-ENV:Code>\n                <SOAP-ENV:Value>SOAP-ENV:Receiver</SOAP-ENV:Value>\n            </SOAP-ENV:Code>\n            <SOAP-ENV:Reason>\n                <SOAP-ENV:Text xml:lang=\"en\">Request timeout</SOAP-ENV:Text>\n            </SOAP-ENV:Reason>\n        </SOAP-ENV:Fault>\n    </SOAP-ENV:Body>\n</SOAP-ENV:Envelope>"

/-- `ONVIFServiceProxy._connection_fault`: the source literal, verbatim. -/
def connection_fault : String :=
  "<?xml version=\"1.0\" encoding=\"UTF-8\"?>\n<SOAP-ENV:Envelope xmlns:SOAP-ENV=\"http://www.w3.org/2003/05/soap-envelope\">\n    <SOAP-ENV:Body>\n        <SOAP-ENV:Fault>\n            <SOAP-ENV:Code>\n                <SOAP-ENV:Value>SOAP-ENV:Receiver</SOAP-ENV:Value>\n            </SOAP-ENV:Code>\n            <SOAP-ENV:Reason>\n                <SOAP-ENV:Text xml:lang=\"en\">Connection error to camera</SOAP-ENV:Text>\n            </SOAP-ENV:Reason>\n        </SOAP-ENV:Fault>\n    </SOAP-ENV:Body>\n</SOAP-ENV:Envelope>"

/-- Outcome of the outbound `requests.post` in `forward_request`: either a
camera reply, or one of the three exception classes the code catches. -/
inductive CamResult where
  | success (text : String) (code : Nat)
  | timeout
  | connError (msg : String)
  | otherError (msg : String)

/-- The camera URL for a service.  The catalog (`self.service_urls`) maps
each of the five known services to
`http://{camera_ip}:{camera_port}/onvif/{service}`, and the fallback for an
unknown service produces the same pattern, so both branches of the lookup
in `forward_request` yield this string. -/
def serviceUrl (cfg : ProxyCfg) (service : String) : String :=
  "http://" ++ cfg.cameraIp ++ ":" ++ cfg.cameraPort ++ "/onvif/" ++ service

/-- `ONVIFServiceProxy.forward_request`: rewrite the request outbound, POST
it to the camera (`cam` is the network oracle: URL and body to outcome),
rewrite a successful response inbound, and classify failures into SOAP
faults with status 500. -/
def forward_request (cfg : ProxyCfg) (cam : String → String → CamResult)
    (service soapBody : String) : String × Nat :=
  let url := serviceUrl cfg service
  let rewrittenBody := rewrite_request cfg soapBody
  match cam url rewrittenBody with
  | .success text code => (rewrite_response cfg text, code)
  | .timeout => (timeout_fault, 500)
  | .connError _ => (connection_fault, 500)
  | .otherError m => (generic_fault m, 500)

/-! ## `src/proxy_server.py` — service-name normalization -/

/-- The service-name normalization in `handle_onvif_request`
(`proxy_server.py` lines 310-318), verbatim: append `_service` (after
stripping trailing `s` characters) when missing, then patch a fixed list
of literal names. -/
def normalizeService (service : String) : String :=
  let normalized :=
    if pyEndsWith service "_service" then service
    else rstripS service ++ "_service"
  if service = "ptz_services" ∨ service = "ptz_service" then "ptz_service"
  else if service = "media_services" ∨ service = "media_service" then "media_service"
  else if service = "device_services" ∨ service = "device_service" then "device_service"
  else if service = "event_services" ∨ service = "event_service" then "events_service"
  else normalized

/-! ## lxml element-tree model

lxml tags are strings of the form `{namespace}localname` (or a bare local
name).  We model the tag as a namespace/local-name pair; `QName(e).localname`
is then the `localName` field, and finding by a `{ns}name` path is finding
by the pair. -/

/-- An lxml element tag. -/
structure Tag where
  ns : Option String
  localName : String
deriving DecidableEq

/-- An lxml element: tag, attributes, text, children. -/
inductive Xml where
  | elem (tag : Tag) (attrs : List (String × String)) (text : Option String)
      (children : List Xml)

/-- Tag of an element. -/
def Xml.tag : Xml → Tag
  | .elem t _ _ _ => t

/-- Attributes of an element. -/
def Xml.attrs : Xml → List (String × String)
  | .elem _ a _ _ => a

/-- Text of an element. -/
def Xml.text : Xml → Option String
  | .elem _ _ tx _ => tx

/-- Children of an element. -/
def Xml.children : Xml → List Xml
  | .elem _ _ _ ch => ch

/-- `element.find('.//{ns}name')` over a list of subtrees: first element
with the given tag in document order, searching each tree's root and then
its descendants.  (Applied to `root.children` this is lxml's
descendant-only `.//` search from `root`.) -/
def findD (t : Tag) : List Xml → Option Xml
  | [] => none
  | .elem tg a tx ch :: rest =>
    if tg = t then some (.elem tg a tx ch)
    else
      match findD t ch with
      | some r => some r
      | none => findD t rest

/-- Rewrite, by `f`, the element `findD` would return, in place; other
elements unchanged.  This models lxml's in-place mutation of the element
returned by `find` followed by reserialization of the whole tree. -/
def mapFD (t : Tag) (f : Xml → Xml) : List Xml → List Xml
  | [] => []
  | .elem tg a tx ch :: rest =>
    if tg = t then f (.elem tg a tx ch) :: rest
    else if (findD t ch).isSome then .elem tg a tx (mapFD t f ch) :: rest
    else .elem tg a tx ch :: mapFD t f rest

/-- `parent.find('{ns}name')`: first direct child with the tag. -/
def firstChildTagged (x : Xml) (t : Tag) : Option Xml :=
  x.children.find? (fun c => c.tag = t)

/-- `parent.findall('{ns}name')`: all direct children with the tag. -/
def childrenTagged (x : Xml) (t : Tag) : List Xml :=
  x.children.filter (fun c => c.tag = t)

/-- Python `list.insert(n, e)` (clamping `n` to the length, as Python does). -/
def insertAt (n : Nat) (e : Xml) : List Xml → List Xml
  | [] => [e]
  | a :: t =>
    match n with
    | 0 => e :: a :: t
    | m + 1 => a :: insertAt m e t

/-- Index of the last child with the given tag
(the `for idx, child in enumerate(spaces)` loop keeping the final match). -/
def lastIdxTagged (t : Tag) : Nat → List Xml → Option Nat
  | _, [] => none
  | i, c :: rest =>
    match lastIdxTagged t (i + 1) rest with
    | some j => some j
    | none => if c.tag = t then some i else none

/-! ## `src/soap_handler.py` — parse_soap_request -/

/-- SOAP 1.2 envelope namespace. -/
def soap12Ns : String := "http://www.w3.org/2003/05/soap-envelope"

/-- SOAP 1.1 envelope namespace. -/
def soap11Ns : String := "http://schemas.xmlsoap.org/soap/envelope/"

/-- ONVIF schema namespace (`tt`). -/
def ttNs : String := "http://www.onvif.org/ver10/schema"

/-- A request body as seen by `etree.fromstring`: either it fails to parse
(any exception → `(None, None)`) or it yields an element tree. -/
inductive SoapInput where
  | malformed
  | wellFormed (root : Xml)

/-- `parse_soap_request`: find the SOAP 1.2 (else 1.1) `Body` descendant;
the operation is the local name of its first child.  Parse failure gives
`(none, none)`; a missing or empty body gives `(none, root)`. -/
def parse_soap_request : SoapInput → Option String × Option Xml
  | .malformed => (none, none)
  | .wellFormed root =>
    let body :=
      match findD ⟨some soap12Ns, "Body"⟩ root.children with
      | some b => some b
      | none => findD ⟨some soap11Ns, "Body"⟩ root.children
    match body with
    | some b =>
      match b.children with
      | op :: _ => (some op.tag.localName, some root)
      | [] => (none, some root)
    | none => (none, some root)

/-! ## `src/proxy_server.py` — add_fov_to_config_options (capability splicer) -/

/-- `{tt}Spaces`. -/
def tagSpaces : Tag := ⟨some ttNs, "Spaces"⟩

/-- `{tt}RelativePanTiltTranslationSpace`. -/
def tagRelPT : Tag := ⟨some ttNs, "RelativePanTiltTranslationSpace"⟩

/-- `{tt}URI`. -/
def tagURI : Tag := ⟨some ttNs, "URI"⟩

/-- The FOV translation-space URI inserted by the splicer. -/
def fovUri : String := "http://www.onvif.org/ver10/tptz/PanTiltSpaces/TranslationSpaceFov"

/-- The `RelativePanTiltTranslationSpace` element the splicer constructs:
`URI` = FOV URI, `XRange` = `YRange` = `[-1, 1]`. -/
def fovSpace : Xml :=
  .elem tagRelPT [] none
    [ .elem tagURI [] (some fovUri) []
    , .elem ⟨some ttNs, "XRange"⟩ [] none
        [ .elem ⟨some ttNs, "Min"⟩ [] (some "-1") []
        , .elem ⟨some ttNs, "Max"⟩ [] (some "1") [] ]
    , .elem ⟨some ttNs, "YRange"⟩ [] none
        [ .elem ⟨some ttNs, "Min"⟩ [] (some "-1") []
        , .elem ⟨some ttNs, "Max"⟩ [] (some "1") [] ] ]

/-- The per-child step of the `for space in spaces.findall(...)` scan: the
loop returns the input unchanged when a child has a `URI` whose text
contains `TranslationSpaceFov` — or whose text is `None`, in which case
`'...' in uri.text` raises `TypeError`, which the enclosing `except` turns
into returning the input unchanged as well. -/
def fovCheckAborts (sp : Xml) : Bool :=
  match firstChildTagged sp tagURI with
  | none => false
  | some u =>
    match u.text with
    | none => true
    | some s => pyContains s "TranslationSpaceFov"

/-- Insert `fovSpace` immediately after the last existing
`RelativePanTiltTranslationSpace` child of `spaces` (append when there is
none), keeping tag, attributes and text. -/
def insertFov (spaces : Xml) : Xml :=
  .elem spaces.tag spaces.attrs spaces.text
    (match lastIdxTagged tagRelPT 0 spaces.children with
     | some i => insertAt (i + 1) fovSpace spaces.children
     | none => spaces.children ++ [fovSpace])

/-- `add_fov_to_config_options`, at tree level (the Python function parses
the response string, mutates the tree, and reserializes; parse errors
return the input unchanged, which is idempotent trivially).  Find the first
`{tt}Spaces` descendant (else return unchanged); require a
`RelativePanTiltTranslationSpace` child (else return unchanged); return
unchanged when the FOV scan aborts; otherwise splice `fovSpace` in. -/
def add_fov_to_config_options (root : Xml) : Xml :=
  match findD tagSpaces root.children with
  | none => root
  | some spaces =>
    match firstChildTagged spaces tagRelPT with
    | none => root
    | some _ =>
      if (childrenTagged spaces tagRelPT).any fovCheckAborts then root
      else .elem root.tag root.attrs root.text (mapFD tagSpaces insertFov root.children)

/-! ## `src/onvif_ptz_wrapper.py` — status tracker

Python floats are modelled as `ℚ`; the arithmetic used (addition,
multiplication, clamping) is exact on the rationals.  The `x`/`y`/`space`
attribute dictionaries built by the SOAP parsers always carry their keys
(`x`, `y` default to `0.0`), so they are modelled as records; the `space`
attribute is never read by any of the modelled code and is omitted. -/

/-- A `PanTilt` vector dictionary (`{'x': .., 'y': ..}`). -/
structure PTVec where
  x : ℚ
  y : ℚ
deriving DecidableEq

/-- A `Zoom` vector dictionary (`{'x': ..}`). -/
structure ZVec where
  x : ℚ
deriving DecidableEq

/-- A `Velocity` / `Translation` / `Position` dictionary with optional
`PanTilt` and `Zoom` entries (a missing entry is `none`; the parsers never
produce an empty — hence falsy — inner dictionary). -/
structure AxisVals where
  panTilt : Option PTVec
  zoom : Option ZVec
deriving DecidableEq

/-- Per-axis move status (the strings `"IDLE"` / `"MOVING"`). -/
inductive MoveSt where
  | IDLE
  | MOVING
deriving DecidableEq

/-- Estimated position `(pt_x, pt_y, zoom)`. -/
structure Position where
  ptX : ℚ
  ptY : ℚ
  zoomX : ℚ
deriving DecidableEq

/-- Tracker state: the two axis statuses, the estimated position, and the
pending auto-IDLE timer of each axis (`self._stop_timers`), modelled by
its remaining duration. -/
structure TrackerState where
  panTiltStatus : MoveSt
  zoomStatus : MoveSt
  pos : Position
  panTiltTimer : Option ℚ
  zoomTimer : Option ℚ
deriving DecidableEq

/-- The tracker's initial state (`__init__`: both axes `IDLE`, position
zero, no timers). -/
def initialTracker : TrackerState :=
  ⟨.IDLE, .IDLE, ⟨0, 0, 0⟩, none, none⟩

/-- `_set_pan_tilt_status`: set the status, cancel any existing timer, and
install an auto-IDLE timer when moving with positive duration. -/
def set_pan_tilt_status (status : MoveSt) (duration : ℚ) (s : TrackerState) :
    TrackerState :=
  let s1 := { s with panTiltStatus := status, panTiltTimer := none }
  if status = .MOVING ∧ duration > 0 then { s1 with panTiltTimer := some duration }
  else s1

/-- `_set_zoom_status`: same contract on the zoom axis. -/
def set_zoom_status (status : MoveSt) (duration : ℚ) (s : TrackerState) :
    TrackerState :=
  let s1 := { s with zoomStatus := status, zoomTimer := none }
  if status = .MOVING ∧ duration > 0 then { s1 with zoomTimer := some duration }
  else s1

/-- `max lo (min hi v)` — the shape `max(lo, min(hi, v))` used by the code. -/
def clamp (lo hi v : ℚ) : ℚ := max lo (min hi v)

/-- `_update_estimated_position(pan_tilt, zoom, duration, velocity)`:
delta mode adds the translation, velocity mode adds
`v * duration * 0.1` (when `duration > 0`), then every component is
clamped (`pt` to `[-1, 1]`, zoom to `[0, 1]`). -/
def update_estimated_position (panTilt : Option PTVec) (zoom : Option ZVec)
    (duration : ℚ) (velocity : Option AxisVals) (p : Position) : Position :=
  let p1 :=
    match panTilt with
    | some pt => { p with ptX := p.ptX + pt.x, ptY := p.ptY + pt.y }
    | none =>
      match velocity with
      | some v =>
        match v.panTilt with
        | some vpt =>
          if duration > 0 then
            { p with ptX := p.ptX + vpt.x * duration * (1/10),
                     ptY := p.ptY + vpt.y * duration * (1/10) }
          else p
        | none => p
      | none => p
  let p2 :=
    match zoom with
    | some z => { p1 with zoomX := p1.zoomX + z.x }
    | none =>
      match velocity with
      | some v =>
        match v.zoom with
        | some vz =>
          if duration > 0 then { p1 with zoomX := p1.zoomX + vz.x * duration * (1/10) }
          else p1
        | none => p1
      | none => p1
  { ptX := clamp (-1) 1 p2.ptX, ptY := clamp (-1) 1 p2.ptY,
    zoomX := clamp 0 1 p2.zoomX }

/-- A `ContinuousMove` request as the wrapper reads it: the `Velocity`
dictionary and the optional parsed `Timeout` in seconds. -/
structure CMReq where
  velocity : AxisVals
  timeout : Option ℚ
deriving DecidableEq

/-- `ONVIFPTZWrapper.ContinuousMove` (tracker part; the outbound camera
call is recorded by the callers).  `is_stop` holds when every present axis
has zero velocity; then both axes go `IDLE`.  Otherwise the duration is
the request timeout when truthy (Python `if timeout:` — `None` and `0.0`
are falsy) else `5.0`, each present axis is set `MOVING` with it, and the
position is updated in velocity mode. -/
def wrapperContinuousMove (req : CMReq) (s : TrackerState) : TrackerState :=
  let panTilt := req.velocity.panTilt
  let zoom := req.velocity.zoom
  let stop1 : Bool :=
    match panTilt with
    | some pt => decide (pt.x = 0) && decide (pt.y = 0)
    | none => true
  let isStop : Bool :=
    stop1 &&
      (match zoom with
       | some z => decide (z.x = 0)
       | none => true)
  if isStop then
    set_zoom_status .IDLE 0 (set_pan_tilt_status .IDLE 0 s)
  else
    let duration : ℚ :=
      match req.timeout with
      | some t => if t = 0 then 5 else t
      | none => 5
    let s1 :=
      match panTilt with
      | some _ => set_pan_tilt_status .MOVING duration s
      | none => s
    let s2 :=
      match zoom with
      | some _ => set_zoom_status .MOVING duration s1
      | none => s1
    { s2 with
      pos := update_estimated_position none none duration (some req.velocity) s2.pos }

/-- `ONVIFPTZWrapper.RelativeMove` (tracker part): each present axis is set
`MOVING` for 2 s and the translation is added (delta mode, clamped). -/
def wrapperRelativeMove (translation : AxisVals) (s : TrackerState) : TrackerState :=
  let s1 :=
    match translation.panTilt with
    | some pt =>
      let t := set_pan_tilt_status .MOVING 2 s
      { t with pos := update_estimated_position (some pt) none 0 none t.pos }
    | none => s
  match translation.zoom with
  | some z =>
    let t := set_zoom_status .MOVING 2 s1
    { t with pos := update_estimated_position none (some z) 0 none t.pos }
  | none => s1

/-- `ONVIFPTZWrapper.AbsoluteMove` (tracker part): each present axis is set
`MOVING` for 3 s, and the estimated position component is *assigned
directly* (`self._estimated_position.PanTilt = pan_tilt.copy()`) — this
path performs no clamping. -/
def wrapperAbsoluteMove (position : AxisVals) (s : TrackerState) : TrackerState :=
  let s1 :=
    match position.panTilt with
    | some pt =>
      let t := set_pan_tilt_status .MOVING 3 s
      { t with pos := { t.pos with ptX := pt.x, ptY := pt.y } }
    | none => s
  match position.zoom with
  | some z =>
    let t := set_zoom_status .MOVING 3 s1
    { t with pos := { t.pos with zoomX := z.x } }
  | none => s1

/-- `GetStatus` snapshot (statuses and position; the wall-clock `UTCTime`
is outside the model). -/
structure Snapshot where
  panTilt : MoveSt
  zoom : MoveSt
  pos : Position
deriving DecidableEq

/-- The simulated status returned under the lock. -/
def snapshot (s : TrackerState) : Snapshot :=
  ⟨s.panTiltStatus, s.zoomStatus, s.pos⟩

/-! ## `src/soap_handler.py` — response emission (the parts the claims use) -/

/-- The `NAMESPACES` table. -/
def NAMESPACES : List (String × String) :=
  [ ("soap", soap12Ns)
  , ("soap12", soap12Ns)
  , ("wsdl", "http://schemas.xmlsoap.org/wsdl/")
  , ("tds", "http://www.onvif.org/ver10/device/wsdl")
  , ("trt", "http://www.onvif.org/ver10/media/wsdl")
  , ("tptz", "http://www.onvif.org/ver20/ptz/wsdl")
  , ("tt", ttNs)
  , ("ter", "http://www.onvif.org/ver10/error") ]

/-- `NAMESPACES.get(namespace, NAMESPACES['tptz'])`. -/
def nsLookup (p : String) : String :=
  match NAMESPACES.lookup p with
  | some u => u
  | none => "http://www.onvif.org/ver20/ptz/wsdl"

/-- `build_simple_response(operation, namespace)`: the empty
`<ns:OperationResponse/>` SOAP 1.2 envelope, from the source f-string. -/
def build_simple_response (operation ns : String) : String :=
  "<?xml version=\"1.0\" encoding=\"UTF-8\"?>\n<SOAP-ENV:Envelope xmlns:SOAP-ENV=\"http://www.w3.org/2003/05/soap-envelope\"\n                   xmlns:" ++ ns ++ "=\"" ++ nsLookup ns ++ "\">\n    <SOAP-ENV:Body>\n        <" ++ ns ++ ":" ++ operation ++ "Response/>\n    </SOAP-ENV:Body>\n</SOAP-ENV:Envelope>"

/-! ## `src/ptz_interceptor.py` — _handle_relative_move -/

/-- The parsed output of `parse_ptz_relative_move`. -/
structure RMParams where
  profileToken : Option String
  translation : AxisVals

/-- Everything `_handle_relative_move` does: the wrapper `ContinuousMove`
calls it makes synchronously (each forwards to the camera before updating
the tracker), a possible synchronous zoom-only `RelativeMove` passthrough,
the follow-up scheduled on the daemon thread (delay, request) — pending
when the handler returns — and the HTTP reply and resulting tracker
state. -/
structure RMOutcome where
  wrapperCMCalls : List CMReq
  wrapperRMCall : Option AxisVals
  scheduled : Option (ℚ × CMReq)
  response : String
  status : Nat
  state : TrackerState

/-- The zero-velocity follow-up request built by `stop_movement`. -/
def rmStopReq : CMReq := ⟨⟨some ⟨0, 0⟩, some ⟨0⟩⟩, none⟩

/-- `PTZInterceptor._handle_relative_move`: with a `PanTilt` translation,
derive a fixed-magnitude velocity from the signs, start a `ContinuousMove`,
schedule the zero-velocity follow-up after
`max(0.3, min(5.0, |tx|*10 + |ty|*10))` seconds, and reply immediately;
zoom-only translations pass through to the wrapper's `RelativeMove`; with
neither axis the request is ignored.  All paths reply
`RelativeMoveResponse` with HTTP 200. -/
def handle_relative_move (params : RMParams) (s : TrackerState) : RMOutcome :=
  let translation := params.translation
  match translation.panTilt with
  | some pt =>
    let vx : ℚ := if pt.x > 0 then 1/2 else if pt.x < 0 then -(1/2) else 0
    let vy : ℚ := if pt.y > 0 then 1/2 else if pt.y < 0 then -(1/2) else 0
    let duration : ℚ := max (3/10) (min 5 (|pt.x| * 10 + |pt.y| * 10))
    let startReq : CMReq := ⟨⟨some ⟨vx, vy⟩, some ⟨0⟩⟩, none⟩
    { wrapperCMCalls := [startReq]
      wrapperRMCall := none
      scheduled := some (duration, rmStopReq)
      response := build_simple_response "RelativeMove" "tptz"
      status := 200
      state := wrapperContinuousMove startReq s }
  | none =>
    match translation.zoom with
    | some _ =>
      { wrapperCMCalls := []
        wrapperRMCall := some translation
        scheduled := none
        response := build_simple_response "RelativeMove" "tptz"
        status := 200
        state := wrapperRelativeMove translation s }
    | none =>
      { wrapperCMCalls := []
        wrapperRMCall := none
        scheduled := none
        response := build_simple_response "RelativeMove" "tptz"
        status := 200
        state := s }

/-! ## `src/proxy_server.py` — handle_onvif_request (request router) -/

/-- What the route handler returns and which outbound forwards it made.
`forwarded` records each `(normalized_service, original_body)` pair handed
to `service_proxy.forward_request`. -/
structure RouterOutcome where
  response : String
  status : Nat
  forwarded : List (String × String)
  intercepted : Bool

/-- `handle_onvif_request` for `POST /onvif/<service>`: parse the SOAP
body, normalize the service name, try the PTZ interceptor when the
normalized service is `ptz_service` and an operation was parsed
(`intercept` is the interceptor: `none` means not intercepted), otherwise
forward to the camera and post-process `GetConfigurationOptions` responses
with the capability splicer (`spliceStr`, the string-level
`add_fov_to_config_options`). -/
def handle_onvif_request (cfg : ProxyCfg) (cam : String → String → CamResult)
    (intercept : String → Xml → Option (String × Nat))
    (spliceStr : String → String)
    (service body : String) (parsed : SoapInput) : RouterOutcome :=
  let pr := parse_soap_request parsed
  let operation := pr.1
  let root := pr.2
  let normalized := normalizeService service
  let tryIntercept : Option (String × Nat) :=
    if normalized = "ptz_service" then
      match operation, root with
      | some op, some r => intercept op r
      | _, _ => none
    else none
  match tryIntercept with
  | some (resp, code) =>
    { response := resp, status := code, forwarded := [], intercepted := true }
  | none =>
    let fwd := forward_request cfg cam normalized body
    let respText :=
      if normalized = "ptz_service" ∧ operation = some "GetConfigurationOptions" then
        spliceStr fwd.1
      else fwd.1
    { response := respText, status := fwd.2,
      forwarded := [(normalized, body)], intercepted := false }

/-! # Theorems for the claims -/

/-! ## Helper lemmas -/

theorem string_append_assoc (a b c : String) : (a ++ b) ++ c = a ++ (b ++ c) := by
  apply congrArg String.mk
  show (a.data ++ b.data) ++ c.data = a.data ++ (b.data ++ c.data)
  exact List.append_assoc _ _ _

theorem le_clamp (lo hi v : ℚ) : lo ≤ clamp lo hi v := le_max_left _ _

theorem clamp_le (lo hi v : ℚ) (h : lo ≤ hi) : clamp lo hi v ≤ hi :=
  max_le h (min_le_left _ _)

/-! ## C6 — failure classification of `forward_request` -/

/-- C6: when forwarding fails, a timeout yields 500 with fault Reason text
`"Request timeout"`, a connection failure yields 500 with
`"Connection error to camera"`, any other exception yields 500 with the
exception message as the Reason text, and in all cases the fault carries
`Code/Value = SOAP-ENV:Receiver` (the fault envelope is
`generic_fault reason`, whose `Text` element contains exactly the reason
and which contains the `SOAP-ENV:Receiver` value element). -/
theorem forward_request_failure_classification (cfg : ProxyCfg)
    (service body msg : String) :
    forward_request cfg (fun _ _ => .timeout) service body
        = (generic_fault "Request timeout", 500)
    ∧ forward_request cfg (fun _ _ => .connError msg) service body
        = (generic_fault "Connection error to camera", 500)
    ∧ forward_request cfg (fun _ _ => .otherError msg) service body
        = (generic_fault msg, 500)
    ∧ (∀ r : String, ∃ pre post : String,
        generic_fault r =
          pre ++ "<SOAP-ENV:Value>SOAP-ENV:Receiver</SOAP-ENV:Value>" ++ post)
    ∧ (∀ r : String, ∃ pre post : String,
        generic_fault r =
          pre ++ ("<SOAP-ENV:Text xml:lang=\"en\">" ++ r ++ "</SOAP-ENV:Text>") ++ post) := by
  refine ⟨rfl, rfl, rfl, ?_, ?_⟩
  · intro r
    refine ⟨"<?xml version=\"1.0\" encoding=\"UTF-8\"?>\n<SOAP-ENV:Envelope xmlns:SOAP-ENV=\"http://www.w3.org/2003/05/soap-envelope\">\n    <SOAP-ENV:Body>\n        <SOAP-ENV:Fault>\n            <SOAP-ENV:Code>\n                ",
        "\n            </SOAP-ENV:Code>\n            <SOAP-ENV:Reason>\n                <SOAP-ENV:Text xml:lang=\"en\">" ++ r ++ faultPost, ?_⟩
    show faultPre ++ r ++ faultPost = _
    rw [show faultPre =
      "<?xml version=\"1.0\" encoding=\"UTF-8\"?>\n<SOAP-ENV:Envelope xmlns:SOAP-ENV=\"http://www.w3.org/2003/05/soap-envelope\">\n    <SOAP-ENV:Body>\n        <SOAP-ENV:Fault>\n            <SOAP-ENV:Code>\n                "
      ++ "<SOAP-ENV:Value>SOAP-ENV:Receiver</SOAP-ENV:Value>"
      ++ "\n            </SOAP-ENV:Code>\n            <SOAP-ENV:Reason>\n                <SOAP-ENV:Text xml:lang=\"en\">" from rfl]
    simp only [string_append_assoc]
  · intro r
    refine ⟨"<?xml version=\"1.0\" encoding=\"UTF-8\"?>\n<SOAP-ENV:Envelope xmlns:SOAP-ENV=\"http://www.w3.org/2003/05/soap-envelope\">\n    <SOAP-ENV:Body>\n        <SOAP-ENV:Fault>\n            <SOAP-ENV:Code>\n                <SOAP-ENV:Value>SOAP-ENV:Receiver</SOAP-ENV:Value>\n            </SOAP-ENV:Code>\n            <SOAP-ENV:Reason>\n                ",
        "\n            </SOAP-ENV:Reason>\n        </SOAP-ENV:Fault>\n    </SOAP-ENV:Body>\n</SOAP-ENV:Envelope>", ?_⟩
    show faultPre ++ r ++ faultPost = _
    rw [show faultPre =
      "<?xml version=\"1.0\" encoding=\"UTF-8\"?>\n<SOAP-ENV:Envelope xmlns:SOAP-ENV=\"http://www.w3.org/2003/05/soap-envelope\">\n    <SOAP-ENV:Body>\n        <SOAP-ENV:Fault>\n            <SOAP-ENV:Code>\n                <SOAP-ENV:Value>SOAP-ENV:Receiver</SOAP-ENV:Value>\n            </SOAP-ENV:Code>\n            <SOAP-ENV:Reason>\n                "
      ++ "<SOAP-ENV:Text xml:lang=\"en\">" from rfl,
      show faultPost = "</SOAP-ENV:Text>"
      ++ "\n            </SOAP-ENV:Reason>\n        </SOAP-ENV:Fault>\n    </SOAP-ENV:Body>\n</SOAP-ENV:Envelope>" from rfl]
    simp only [string_append_assoc]

/-! ## C5 — service-name normalization -/

/-- C5 counterexample: the claim says `'event'` and `'events'` map to
`'events_service'`; the code maps both to `'event_service'` (the literal
patch list only matches `'event_service'`/`'event_services'`, not the raw
route names `'event'`/`'events'`). -/
theorem normalizeService_event_counterexample :
    normalizeService "event" = "event_service"
    ∧ normalizeService "events" = "event_service"
    ∧ ("event_service" : String) ≠ "events_service" := by
  refine ⟨rfl, rfl, by decide⟩

/-- C5 amended: the router appends `_service` (after stripping trailing
`s` characters) when the name does not already end in `_service`, and then
patches a fixed list of literals.  In particular `'ptz'` maps to
`'ptz_service'`, but `'event'` and `'events'` map to `'event_service'`;
only the literals `'event_service'` and `'event_services'` are mapped to
`'events_service'`. -/
theorem normalizeService_amended :
    normalizeService "ptz" = "ptz_service"
    ∧ normalizeService "event" = "event_service"
    ∧ normalizeService "events" = "event_service"
    ∧ normalizeService "event_service" = "events_service"
    ∧ normalizeService "event_services" = "events_service"
    ∧ (∀ s : String, pyEndsWith s "_service" = false →
        s ∉ (["ptz_services", "media_services", "device_services",
              "event_services"] : List String) →
        normalizeService s = rstripS s ++ "_service") := by
  refine ⟨rfl, rfl, rfl, rfl, rfl, ?_⟩
  intro s h1 h2
  simp only [List.mem_cons, List.mem_nil_iff, or_false, not_or] at h2
  obtain ⟨n1, n2, n3, n4⟩ := h2
  have hsvc : ∀ t : String, pyEndsWith t "_service" = true → s ≠ t := by
    intro t ht he
    rw [he, ht] at h1
    cases h1
  simp only [normalizeService]
  rw [if_neg (fun h => h.elim n1 (hsvc "ptz_service" (by decide))),
    if_neg (fun h => h.elim n2 (hsvc "media_service" (by decide))),
    if_neg (fun h => h.elim n3 (hsvc "device_service" (by decide))),
    if_neg (fun h => h.elim n4 (hsvc "event_service" (by decide))),
    if_neg (by intro h; rw [h1] at h; cases h)]

/-- C5 amended, witness: a generic service name takes the
strip-and-append path. -/
theorem normalizeService_amended_witness :
    normalizeService "imaging" = rstripS "imaging" ++ "_service" :=
  normalizeService_amended.2.2.2.2.2 "imaging" (by decide) (by decide)

/-! ## C8 — address rewriting -/

/-- The identity used for the C8 counterexample: camera at
`192.168.1.10:8001`, proxy seen at `127.0.0.1:8000`. -/
def cfgC8 : ProxyCfg := ⟨"192.168.1.10", "8001", "127.0.0.1", "8000"⟩

/-- C8 counterexample: the payload `x` below contains only proxy-identity
tokens (no camera host, no camera-port patterns), yet
`rewrite_response(rewrite_request(x))` — the outbound pass followed by the
inbound pass — *restores* the proxy references rather than leaving none:
the result again contains the substitutable proxy host and port patterns
(indeed it equals `x`). -/
theorem rewrite_roundtrip_counterexample :
    (pyContains "http://127.0.0.1:8000/onvif/device_service" cfgC8.cameraIp = false
      ∧ pyContains "http://127.0.0.1:8000/onvif/device_service" (":" ++ cfgC8.cameraPort ++ "/") = false
      ∧ pyContains "http://127.0.0.1:8000/onvif/device_service" (":" ++ cfgC8.cameraPort ++ "<") = false)
    ∧ rewrite_response cfgC8
        (rewrite_request cfgC8 "http://127.0.0.1:8000/onvif/device_service")
        = "http://127.0.0.1:8000/onvif/device_service"
    ∧ pyContains
        (rewrite_response cfgC8
          (rewrite_request cfgC8 "http://127.0.0.1:8000/onvif/device_service"))
        cfgC8.proxyHost = true
    ∧ pyContains
        (rewrite_response cfgC8
          (rewrite_request cfgC8 "http://127.0.0.1:8000/onvif/device_service"))
        (":" ++ cfgC8.proxyPort ++ "/") = true := by
  exact ⟨⟨by decide, by decide, by decide⟩, by decide, by decide, by decide⟩

/-- C8 amended: the two rewriting passes are exact inverses on
proxy-token-only payloads — so the composition restores, not removes, the
proxy references — while the second half of the claim does hold: a payload
containing none of the three substitutable proxy patterns (the proxy host,
`:{proxy_port}/`, `:{proxy_port}<`), i.e. one containing only camera
tokens, is left unchanged by `rewrite_request`. -/
theorem rewrite_request_camera_only_unchanged (cfg : ProxyCfg) (x : String)
    (h1 : pyContains x cfg.proxyHost = false)
    (h2 : pyContains x (":" ++ cfg.proxyPort ++ "/") = false)
    (h3 : pyContains x (":" ++ cfg.proxyPort ++ "<") = false) :
    rewrite_request cfg x = x := by
  show pyReplace (pyReplace (pyReplace x cfg.proxyHost cfg.cameraIp)
      (":" ++ cfg.proxyPort ++ "/") (":" ++ cfg.cameraPort ++ "/"))
      (":" ++ cfg.proxyPort ++ "<") (":" ++ cfg.cameraPort ++ "<") = x
  rw [pyReplace_of_not_contains _ _ _ h1, pyReplace_of_not_contains _ _ _ h2,
    pyReplace_of_not_contains _ _ _ h3]

/-- C8 amended, witness: a camera-token-only payload is untouched by the
outbound rewrite. -/
theorem rewrite_request_camera_only_unchanged_witness :
    rewrite_request cfgC8 "http://192.168.1.10:8001/onvif/device_service"
      = "http://192.168.1.10:8001/onvif/device_service" :=
  rewrite_request_camera_only_unchanged cfgC8 _ (by decide) (by decide) (by decide)

/-! ## C2 — position invariants and AbsoluteMove -/

/-- The claimed invariant ranges: `pt ∈ [-1, 1]`, `zoom ∈ [0, 1]`. -/
def positionInRange (p : Position) : Prop :=
  -1 ≤ p.ptX ∧ p.ptX ≤ 1 ∧ -1 ≤ p.ptY ∧ p.ptY ≤ 1 ∧ 0 ≤ p.zoomX ∧ p.zoomX ≤ 1

/-- C2 counterexample: `AbsoluteMove` with the out-of-range position
`PanTilt = (5, -3)`, `Zoom = 2` stores that position verbatim —
`AbsoluteMove` assigns the estimated position directly, bypassing the
clamping in `_update_estimated_position` — so the snapshot position is
`(5, -3, 2)`, violating the invariant, not `clamp(p) = (1, -1, 1)`. -/
theorem absoluteMove_unclamped_counterexample :
    (wrapperAbsoluteMove ⟨some ⟨5, -3⟩, some ⟨2⟩⟩ initialTracker).pos = ⟨5, -3, 2⟩
    ∧ ¬ positionInRange (wrapperAbsoluteMove ⟨some ⟨5, -3⟩, some ⟨2⟩⟩ initialTracker).pos
    ∧ (wrapperAbsoluteMove ⟨some ⟨5, -3⟩, some ⟨2⟩⟩ initialTracker).pos
        ≠ ⟨clamp (-1) 1 5, clamp (-1) 1 (-3), clamp 0 1 2⟩ := by
  refine ⟨by decide, ?_, by decide⟩
  intro h
  have := h.2.1
  rw [show (wrapperAbsoluteMove ⟨some ⟨5, -3⟩, some ⟨2⟩⟩ initialTracker).pos.ptX = 5 from by decide] at this
  norm_num at this

/-- C2 amended: every update that goes through
`_update_estimated_position` is clamped into the invariant ranges, but
`AbsoluteMove` assigns the requested position directly and unclamped:
immediately after it returns, the snapshot position equals `p` itself
(not `clamp(p)`), so the invariant holds after every position update
except the `AbsoluteMove` direct assignment. -/
theorem update_clamped_and_absoluteMove_direct :
    (∀ (pt : Option PTVec) (z : Option ZVec) (d : ℚ) (v : Option AxisVals) (p : Position),
      positionInRange (update_estimated_position pt z d v p))
    ∧ (∀ (position : AxisVals) (s : TrackerState) (pt : PTVec) (z : ZVec),
        position.panTilt = some pt → position.zoom = some z →
        (snapshot (wrapperAbsoluteMove position s)).pos = ⟨pt.x, pt.y, z.x⟩) := by
  constructor
  · intro pt z d v p
    exact ⟨le_clamp _ _ _, clamp_le _ _ _ (by norm_num), le_clamp _ _ _,
      clamp_le _ _ _ (by norm_num), le_clamp _ _ _, clamp_le _ _ _ (by norm_num)⟩
  · intro position s pt z h1 h2
    simp only [wrapperAbsoluteMove, h1, h2, snapshot, set_pan_tilt_status,
      set_zoom_status]
    split <;> rfl

/-- C2 amended, witness. -/
theorem update_clamped_and_absoluteMove_direct_witness :
    (snapshot (wrapperAbsoluteMove ⟨some ⟨5, -3⟩, some ⟨2⟩⟩ initialTracker)).pos
      = ⟨5, -3, 2⟩ :=
  update_clamped_and_absoluteMove_direct.2 ⟨some ⟨5, -3⟩, some ⟨2⟩⟩ initialTracker
    ⟨5, -3⟩ ⟨2⟩ rfl rfl

/-! ## C4 — RelativeMove synthesis -/

theorem sign_half (a : ℚ) :
    (if a > 0 then (1 : ℚ)/2 else if a < 0 then -(1/2) else 0)
      = (SignType.sign a : ℚ) * (1/2) := by
  rcases lt_trichotomy a 0 with h | rfl | h
  · rw [if_neg (by linarith), if_pos h, sign_neg h]
    norm_num
  · simp
  · rw [if_pos h, sign_pos h]
    norm_num

/-- C4: for a `RelativeMove` with a `PanTilt` translation `(tx, ty)`, the
handler immediately issues one `ContinuousMove` with velocity
`(sign(tx) * 0.5, sign(ty) * 0.5)` and zero `Zoom`, schedules the
zero-velocity follow-up on a separate task after
`clamp(|tx|*10 + |ty|*10, 0.3, 5.0)` seconds (pending when the handler
returns), and replies `RelativeMoveResponse` with HTTP 200 immediately —
the handler's state reflects only the first `ContinuousMove`. -/
theorem relativeMove_synthesis (params : RMParams) (s : TrackerState) (pt : PTVec)
    (h : params.translation.panTilt = some pt) :
    (handle_relative_move params s).wrapperCMCalls =
      [⟨⟨some ⟨(SignType.sign pt.x : ℚ) * (1/2), (SignType.sign pt.y : ℚ) * (1/2)⟩,
          some ⟨0⟩⟩, none⟩]
    ∧ (handle_relative_move params s).scheduled =
        some (clamp (3/10) 5 (|pt.x| * 10 + |pt.y| * 10), ⟨⟨some ⟨0, 0⟩, some ⟨0⟩⟩, none⟩)
    ∧ (handle_relative_move params s).wrapperRMCall = none
    ∧ (handle_relative_move params s).response = build_simple_response "RelativeMove" "tptz"
    ∧ (handle_relative_move params s).status = 200
    ∧ (handle_relative_move params s).state =
        wrapperContinuousMove
          ⟨⟨some ⟨(SignType.sign pt.x : ℚ) * (1/2), (SignType.sign pt.y : ℚ) * (1/2)⟩,
            some ⟨0⟩⟩, none⟩ s := by
  simp only [handle_relative_move, h, ← sign_half, rmStopReq, clamp]
  exact ⟨by simp, by simp, by simp, by simp, by simp, by simp⟩

/-- C4 witness: `Translation.PanTilt = (0.2, 0)` schedules the follow-up
after `clamp(2.0, 0.3, 5.0)` seconds. -/
theorem relativeMove_synthesis_witness :
    (handle_relative_move ⟨some "PROFILE_000", ⟨some ⟨1/5, 0⟩, none⟩⟩ initialTracker).scheduled
      = some (clamp (3/10) 5 (|(1/5 : ℚ)| * 10 + |(0 : ℚ)| * 10),
          ⟨⟨some ⟨0, 0⟩, some ⟨0⟩⟩, none⟩) :=
  (relativeMove_synthesis ⟨some "PROFILE_000", ⟨some ⟨1/5, 0⟩, none⟩⟩ initialTracker
    ⟨1/5, 0⟩ rfl).2.1

/-! ## C9 — RelativeMove with neither axis -/

/-- C9: a `RelativeMove` whose translation has neither `PanTilt` nor
`Zoom` makes no outbound call (no wrapper `ContinuousMove`, no wrapper
`RelativeMove`, nothing scheduled), leaves the tracker state untouched,
and still replies `RelativeMoveResponse` with HTTP 200. -/
theorem relativeMove_empty_frame (params : RMParams) (s : TrackerState)
    (h1 : params.translation.panTilt = none)
    (h2 : params.translation.zoom = none) :
    (handle_relative_move params s).wrapperCMCalls = []
    ∧ (handle_relative_move params s).wrapperRMCall = none
    ∧ (handle_relative_move params s).scheduled = none
    ∧ (handle_relative_move params s).state = s
    ∧ (handle_relative_move params s).response = build_simple_response "RelativeMove" "tptz"
    ∧ (handle_relative_move params s).status = 200
    ∧ pyContains (handle_relative_move params s).response
        "<tptz:RelativeMoveResponse/>" = true := by
  simp only [handle_relative_move, h1, h2]
  exact ⟨by simp, by simp, by simp, by simp, by simp, by simp, by decide⟩

/-- C9 witness. -/
theorem relativeMove_empty_frame_witness :
    (handle_relative_move ⟨some "PROFILE_000", ⟨none, none⟩⟩ initialTracker).state
      = initialTracker :=
  (relativeMove_empty_frame ⟨some "PROFILE_000", ⟨none, none⟩⟩ initialTracker
    rfl rfl).2.2.2.1

/-! ## C3 — ContinuousMove tracking -/

/-- Both velocities zero or absent (the claim's stop condition). -/
def velocityZero (v : AxisVals) : Bool :=
  (match v.panTilt with
   | some pt => decide (pt.x = 0) && decide (pt.y = 0)
   | none => true)
  && (match v.zoom with
      | some z => decide (z.x = 0)
      | none => true)

/-- The duration rule (amended): the request timeout when present and
non-zero, else 5.0 seconds. -/
def cmDuration (timeout : Option ℚ) : ℚ :=
  match timeout with
  | some t => if t = 0 then 5 else t
  | none => 5

/-- Normal form of `_set_pan_tilt_status("MOVING", d)`. -/
theorem set_pan_tilt_status_MOVING (d : ℚ) (s : TrackerState) :
    set_pan_tilt_status .MOVING d s =
      { s with panTiltStatus := .MOVING,
               panTiltTimer := if 0 < d then some d else none } := by
  unfold set_pan_tilt_status
  by_cases h : 0 < d
  · rw [if_pos ⟨rfl, h⟩, if_pos h]
  · rw [if_neg (fun hc => h hc.2), if_neg h]

/-- Normal form of `_set_zoom_status("MOVING", d)`. -/
theorem set_zoom_status_MOVING (d : ℚ) (s : TrackerState) :
    set_zoom_status .MOVING d s =
      { s with zoomStatus := .MOVING,
               zoomTimer := if 0 < d then some d else none } := by
  unfold set_zoom_status
  by_cases h : 0 < d
  · rw [if_pos ⟨rfl, h⟩, if_pos h]
  · rw [if_neg (fun hc => h hc.2), if_neg h]

/-- Normal form of `_set_pan_tilt_status("IDLE", d)`. -/
theorem set_pan_tilt_status_IDLE (d : ℚ) (s : TrackerState) :
    set_pan_tilt_status .IDLE d s =
      { s with panTiltStatus := .IDLE, panTiltTimer := none } := by
  unfold set_pan_tilt_status
  rw [if_neg (fun hc => MoveSt.noConfusion hc.1)]

/-- Normal form of `_set_zoom_status("IDLE", d)`. -/
theorem set_zoom_status_IDLE (d : ℚ) (s : TrackerState) :
    set_zoom_status .IDLE d s =
      { s with zoomStatus := .IDLE, zoomTimer := none } := by
  unfold set_zoom_status
  rw [if_neg (fun hc => MoveSt.noConfusion hc.1)]

/-- C3 counterexample: a `ContinuousMove` with `PanTilt = (0, 0)` present
and `Zoom = 1` is not a stop, and the code then marks *every present*
axis `MOVING` — including the zero-velocity `PanTilt` axis — contradicting
the claim that only non-zero axes are set to `MOVING`. -/
theorem continuousMove_zero_axis_counterexample :
    (wrapperContinuousMove ⟨⟨some ⟨0, 0⟩, some ⟨1⟩⟩, none⟩ initialTracker).panTiltStatus
      = .MOVING
    ∧ (⟨⟨some ⟨0, 0⟩, some ⟨1⟩⟩, none⟩ : CMReq).velocity.panTilt = some ⟨0, 0⟩ := by
  constructor
  · norm_num [wrapperContinuousMove, set_pan_tilt_status_MOVING, set_zoom_status_MOVING]
  · rfl

/-- The claim's description of `ContinuousMove` tracking, amended to what
the code does: when every present velocity component is zero, both axes go
`IDLE` (timers cancelled) regardless of prior state and the position is
untouched; otherwise the duration is the request timeout when present and
non-zero, else 5.0 s; *every present axis* (zero-velocity or not) is set
`MOVING` with that duration (installing the auto-IDLE timer when the
duration is positive), an absent axis keeps its status and timer, and the
position is updated in velocity mode. -/
def continuousMoveExpected (req : CMReq) (s : TrackerState) : TrackerState :=
  if velocityZero req.velocity then
    { s with panTiltStatus := .IDLE, zoomStatus := .IDLE,
             panTiltTimer := none, zoomTimer := none }
  else
    let d := cmDuration req.timeout
    { panTiltStatus := if req.velocity.panTilt.isSome then .MOVING else s.panTiltStatus
      zoomStatus := if req.velocity.zoom.isSome then .MOVING else s.zoomStatus
      pos := update_estimated_position none none d (some req.velocity) s.pos
      panTiltTimer :=
        if req.velocity.panTilt.isSome then (if d > 0 then some d else none)
        else s.panTiltTimer
      zoomTimer :=
        if req.velocity.zoom.isSome then (if d > 0 then some d else none)
        else s.zoomTimer }

/-- C3 amended: `ONVIFPTZWrapper.ContinuousMove`'s tracker update equals
the amended description `continuousMoveExpected` on every request and
prior state. -/
theorem continuousMove_tracking (req : CMReq) (s : TrackerState) :
    wrapperContinuousMove req s = continuousMoveExpected req s := by
  obtain ⟨⟨pt, z⟩, timeout⟩ := req
  cases pt with
  | none =>
    cases z with
    | none =>
      simp [wrapperContinuousMove, continuousMoveExpected, velocityZero,
        set_pan_tilt_status_IDLE, set_zoom_status_IDLE]
    | some zv =>
      by_cases hz : zv.x = 0
      · simp [wrapperContinuousMove, continuousMoveExpected, velocityZero, hz,
          set_pan_tilt_status_IDLE, set_zoom_status_IDLE]
      · simp [wrapperContinuousMove, continuousMoveExpected, velocityZero, cmDuration,
          hz, set_zoom_status_MOVING]
  | some p =>
    by_cases hx : p.x = 0 <;> by_cases hy : p.y = 0 <;>
      cases z with
      | none =>
        first
        | simp [wrapperContinuousMove, continuousMoveExpected, velocityZero, hx, hy,
            set_pan_tilt_status_IDLE, set_zoom_status_IDLE, cmDuration,
            set_pan_tilt_status_MOVING]
      | some zv =>
        by_cases hz : zv.x = 0 <;>
          simp [wrapperContinuousMove, continuousMoveExpected, velocityZero, hx, hy,
            hz, set_pan_tilt_status_IDLE, set_zoom_status_IDLE, cmDuration,
            set_pan_tilt_status_MOVING, set_zoom_status_MOVING]

/-! ## C1 — malformed SOAP handling -/

/-- C1 amended: when the body fails to parse
(`parse_soap_request` yields `(None, None)`), the operation is `None`, so
the interception branch is skipped and the request *is* forwarded to the
camera; the reply is exactly the forwarder's result (no
`GetConfigurationOptions` post-processing, no fault of its own).  This
holds for every configuration, camera behavior, interceptor, service and
body. -/
theorem malformed_soap_is_forwarded (cfg : ProxyCfg)
    (cam : String → String → CamResult)
    (intercept : String → Xml → Option (String × Nat))
    (spliceStr : String → String) (service body : String) :
    (handle_onvif_request cfg cam intercept spliceStr service body .malformed).response
        = (forward_request cfg cam (normalizeService service) body).1
    ∧ (handle_onvif_request cfg cam intercept spliceStr service body .malformed).status
        = (forward_request cfg cam (normalizeService service) body).2
    ∧ (handle_onvif_request cfg cam intercept spliceStr service body .malformed).forwarded
        = [(normalizeService service, body)]
    ∧ (handle_onvif_request cfg cam intercept spliceStr service body .malformed).intercepted
        = false := by
  simp only [handle_onvif_request, parse_soap_request]
  exact ⟨by simp, by simp, by simp, by simp⟩

/-- C1 counterexample: with a camera that answers `200 <ok/>`, a POST to
`/onvif/ptz` whose body is malformed is forwarded to the camera (one
outbound call is made) and answered with the camera's reply and status 200
— not with HTTP 500, and with no `"Malformed SOAP"` fault (that string
appears nowhere in the code). -/
theorem malformed_soap_counterexample :
    (handle_onvif_request ⟨"192.168.1.10", "8000", "127.0.0.1", "8000"⟩
        (fun _ _ => .success "<ok/>" 200) (fun _ _ => none) id
        "ptz" "not xml" .malformed).status = 200
    ∧ (handle_onvif_request ⟨"192.168.1.10", "8000", "127.0.0.1", "8000"⟩
        (fun _ _ => .success "<ok/>" 200) (fun _ _ => none) id
        "ptz" "not xml" .malformed).status ≠ 500
    ∧ (handle_onvif_request ⟨"192.168.1.10", "8000", "127.0.0.1", "8000"⟩
        (fun _ _ => .success "<ok/>" 200) (fun _ _ => none) id
        "ptz" "not xml" .malformed).forwarded = [("ptz_service", "not xml")]
    ∧ pyContains
        (handle_onvif_request ⟨"192.168.1.10", "8000", "127.0.0.1", "8000"⟩
          (fun _ _ => .success "<ok/>" 200) (fun _ _ => none) id
          "ptz" "not xml" .malformed).response "Malformed SOAP" = false := by
  exact ⟨by decide, by decide, by decide, by decide⟩

/-! ## C7 / C10 — capability splicer -/

theorem tag_insertFov (e : Xml) : (insertFov e).tag = e.tag := rfl

/-- Rewriting the first `t`-tagged descendant in place commutes with
finding it, as long as the rewrite preserves the tag. -/
theorem findD_mapFD (t : Tag) (f : Xml → Xml) (hf : ∀ e, (f e).tag = e.tag) :
    ∀ l : List Xml, findD t (mapFD t f l) = (findD t l).map f := by
  intro l
  induction l using mapFD.induct t f with
  | case1 => simp [mapFD, findD]
  | case2 a tx ch rest =>
    have htag := hf (.elem t a tx ch)
    cases hfe : f (.elem t a tx ch) with
    | elem tg2 a2 tx2 ch2 =>
      rw [hfe] at htag
      simp only [Xml.tag] at htag
      simp [mapFD, findD, hfe, htag]
  | case3 tg a tx ch rest htg hsome ih =>
    obtain ⟨r, hr⟩ := Option.isSome_iff_exists.mp hsome
    simp [mapFD, findD, htg, hr, ih, Option.isSome_some]
  | case4 tg a tx ch rest htg hnone ih =>
    have hn : findD t ch = none := by
      cases h : findD t ch with
      | none => rfl
      | some r => rw [h] at hnone; simp at hnone
    simp [mapFD, findD, htg, hn, ih]

theorem mem_insertAt (e : Xml) : ∀ (n : Nat) (l : List Xml), e ∈ insertAt n e l := by
  intro n l
  induction l generalizing n with
  | nil => simp [insertAt]
  | cons a tl ih =>
    cases n with
    | zero => simp [insertAt]
    | succ m => simp only [insertAt, List.mem_cons]; exact Or.inr (ih m)

theorem fov_mem_insertFov (sp : Xml) : fovSpace ∈ (insertFov sp).children := by
  cases sp with
  | elem tg a tx ch =>
    simp only [insertFov, Xml.children, Xml.tag, Xml.attrs, Xml.text]
    cases hL : lastIdxTagged tagRelPT 0 ch with
    | none => simp
    | some i => exact mem_insertAt fovSpace (i + 1) ch

theorem fovCheckAborts_fovSpace : fovCheckAborts fovSpace = true := by
  decide

/-- After the splice, the scan finds the inserted FOV space and aborts. -/
theorem any_fovCheckAborts_insertFov (sp : Xml) :
    (childrenTagged (insertFov sp) tagRelPT).any fovCheckAborts = true := by
  rw [List.any_eq_true]
  refine ⟨fovSpace, List.mem_filter.mpr ⟨fov_mem_insertFov sp, by decide⟩,
    fovCheckAborts_fovSpace⟩

/-- After the splice, `Spaces` still has a `RelativePanTiltTranslationSpace`
child. -/
theorem firstChildTagged_insertFov_isSome (sp : Xml) :
    ∃ z, firstChildTagged (insertFov sp) tagRelPT = some z := by
  rw [← Option.isSome_iff_exists]
  unfold firstChildTagged
  rw [List.find?_isSome]
  exact ⟨fovSpace, fov_mem_insertFov sp, by decide⟩

/-- C7: the capability splicer is idempotent: when the first pass inserts
the FOV space, the second pass finds a `RelativePanTiltTranslationSpace`
whose `URI` contains `TranslationSpaceFov` and returns its input
unchanged; all other paths already return their input unchanged. -/
theorem add_fov_to_config_options_idem (root : Xml) :
    add_fov_to_config_options (add_fov_to_config_options root)
      = add_fov_to_config_options root := by
  rcases h1 : findD tagSpaces root.children with _ | spaces
  · have e : add_fov_to_config_options root = root := by
      simp only [add_fov_to_config_options, h1]
    rw [e]; exact e
  · rcases h2 : firstChildTagged spaces tagRelPT with _ | y
    · have e : add_fov_to_config_options root = root := by
        simp only [add_fov_to_config_options, h1, h2]
      rw [e]; exact e
    · cases h3 : (childrenTagged spaces tagRelPT).any fovCheckAborts with
      | true =>
        have e : add_fov_to_config_options root = root := by
          simp only [add_fov_to_config_options, h1, h2, h3, if_true]
        rw [e]; exact e
      | false =>
        have e : add_fov_to_config_options root =
            .elem root.tag root.attrs root.text
              (mapFD tagSpaces insertFov root.children) := by
          simp only [add_fov_to_config_options, h1, h2, h3, Bool.false_eq_true,
            if_false]
        rw [e]
        have hfind : findD tagSpaces
            (Xml.elem root.tag root.attrs root.text
              (mapFD tagSpaces insertFov root.children)).children
            = some (insertFov spaces) := by
          show findD tagSpaces (mapFD tagSpaces insertFov root.children)
            = some (insertFov spaces)
          rw [findD_mapFD tagSpaces insertFov tag_insertFov, h1]
          rfl
        obtain ⟨z, hz⟩ := firstChildTagged_insertFov_isSome spaces
        simp only [add_fov_to_config_options, hfind, hz,
          any_fovCheckAborts_insertFov, if_true]

/-- C10: when the response has a `Spaces` element but no
`RelativePanTiltTranslationSpace` child at all, the splicer returns the
input unchanged — no FOV space is constructed or inserted. -/
theorem no_relpt_child_unchanged (root spaces : Xml)
    (h1 : findD tagSpaces root.children = some spaces)
    (h2 : firstChildTagged spaces tagRelPT = none) :
    add_fov_to_config_options root = root := by
  simp only [add_fov_to_config_options, h1, h2]

/-- A concrete `GetConfigurationOptionsResponse` tree whose `Spaces` has
only an absolute space, no relative pan/tilt space. -/
def spacesNoRelPT : Xml :=
  .elem tagSpaces [] none
    [.elem ⟨some ttNs, "AbsolutePanTiltPositionSpace"⟩ [] none []]

/-- The enclosing response tree for the C10 witness. -/
def responseNoRelPT : Xml :=
  .elem ⟨some soap12Ns, "Envelope"⟩ [] none
    [.elem ⟨some soap12Ns, "Body"⟩ [] none [spacesNoRelPT]]

/-- C10 witness. -/
theorem no_relpt_child_unchanged_witness :
    add_fov_to_config_options responseNoRelPT = responseNoRelPT := by
  refine no_relpt_child_unchanged responseNoRelPT spacesNoRelPT ?_ ?_
  · simp [findD, responseNoRelPT, spacesNoRelPT, Xml.children, tagSpaces,
      soap12Ns, ttNs, Tag.mk.injEq]
  · simp [firstChildTagged, spacesNoRelPT, Xml.children, Xml.tag, tagRelPT,
      tagSpaces, ttNs, Tag.mk.injEq]

end OnvifProxy
